import Mathlib

/-!
Shallow embedding of the pottery-glazing chemistry analyzer
(`glaze_processor.py` and the tool layer `server.py`).

Numbers are modelled as exact rationals; Python `round(x, 1)` is modelled
as round-half-to-even at one decimal place; Python `str.lower()` /
`str.capitalize()` are modelled with `pyLower` and `pyCapitalize` over the
ASCII range.  Dictionary `get` with a default is modelled as a chain of
`if` tests on the lower-cased key.
-/

namespace PotteryGlazing

/-- Python `round(x, 1)`: round to one decimal digit, ties to even. -/
def round1 (x : ℚ) : ℚ :=
  if 10 * x - (Int.floor (10 * x) : ℚ) > 1/2 then ((Int.floor (10 * x) + 1 : ℤ) : ℚ) / 10
  else if 10 * x - (Int.floor (10 * x) : ℚ) < 1/2 then ((Int.floor (10 * x) : ℤ) : ℚ) / 10
  else if Int.floor (10 * x) % 2 = 0 then ((Int.floor (10 * x) : ℤ) : ℚ) / 10
  else ((Int.floor (10 * x) + 1 : ℤ) : ℚ) / 10

/-- Python `str.lower()` (ASCII range, which covers every recognized key). -/
def pyLower (s : String) : String :=
  String.mk (s.data.map Char.toLower)

/-- Python `str.capitalize()`: first character upper-cased, rest lower-cased. -/
def pyCapitalize (s : String) : String :=
  match s.data with
  | [] => ""
  | c :: cs => String.mk (c.toUpper :: cs.map Char.toLower)

/-- Result of `apply_colorant_morphism`: the colorant profile dictionary. -/
structure ColorantProfile where
  hue_temperature : ℚ
  color_purity : ℚ
  characteristic_intensity : ℚ
  description : String
deriving DecidableEq, Repr

/-- Hue shift under reduction atmosphere (`_get_reduction_hue_shift`). -/
def _get_reduction_hue_shift (colorant : String) : ℚ :=
  if pyLower colorant = "copper" then -15
  else if pyLower colorant = "iron" then -8
  else if pyLower colorant = "cobalt" then -5
  else if pyLower colorant = "chrome" then 0
  else if pyLower colorant = "manganese" then 3
  else if pyLower colorant = "vanadium" then -10
  else 0

/-- Hue shift under oxidation atmosphere (`_get_oxidation_hue_shift`). -/
def _get_oxidation_hue_shift (colorant : String) : ℚ :=
  if pyLower colorant = "copper" then 5
  else if pyLower colorant = "iron" then 8
  else if pyLower colorant = "cobalt" then 2
  else if pyLower colorant = "chrome" then 0
  else if pyLower colorant = "manganese" then -3
  else if pyLower colorant = "vanadium" then 5
  else 0

/-- Morphism: Atmosphere → ColorModulation.
Returns `(optical_intensity, saturation_modifier, hue_shift)`. -/
def apply_atmosphere_morphism (colorant atmosphere : String) : ℚ × ℚ × ℚ :=
  if pyLower atmosphere = "reduction" then
    (8.5, 1.3, _get_reduction_hue_shift colorant)
  else if pyLower atmosphere = "oxidation" then
    (4.0, 0.7, _get_oxidation_hue_shift colorant)
  else
    (5.5, 1.0, 0)

/-- Morphism: FluxBehavior → SurfaceTexture.
Returns `(reflectivity_0_to_10, surface_description)`. -/
def apply_flux_morphism (flux_type : String) : ℚ × String :=
  if pyLower flux_type = "boron" then (9.5, "glossy, mirror-like, highly reflective")
  else if pyLower flux_type = "alkaline" then (6.0, "satin, fluid, slight matte")
  else if pyLower flux_type = "alkaline_earth" then (2.5, "matte, absorptive, grounded")
  else if pyLower flux_type = "lead" then (8.0, "glassy, smooth, luminous")
  else (5.0, "balanced")

/-- Morphism: TemperatureRange → GlazeMaturation.
Returns `(maturation_level_0_to_10, crystalline_definition_0_to_10)`. -/
def apply_temperature_morphism (cone : ℤ) : ℚ × ℚ :=
  if cone ≤ 2 then (3.5, 1.0)
  else if cone ≤ 6 then (7.0, 4.0)
  else (9.5, 8.0)

/-- Morphism: ColorDevelopment → VisualEffect. -/
def apply_colorant_morphism (colorant : String) : ColorantProfile :=
  if pyLower colorant = "iron" then
    ⟨8.0, 6.0, 6.5, "earthy, natural, warm depth"⟩
  else if pyLower colorant = "cobalt" then
    ⟨1.5, 9.0, 8.5, "intense blue, pure, gem-like"⟩
  else if pyLower colorant = "copper" then
    ⟨5.0, 8.0, 8.0, "versatile, responds dramatically to atmosphere"⟩
  else if pyLower colorant = "chrome" then
    ⟨2.0, 7.0, 7.0, "stable green, mineral quality"⟩
  else if pyLower colorant = "manganese" then
    ⟨1.0, 5.0, 5.5, "soft purple-brown, muted, organic"⟩
  else if pyLower colorant = "vanadium" then
    ⟨7.0, 6.5, 6.0, "warm yellow, slightly muted, rare"⟩
  else
    ⟨5.0, 5.0, 5.0, "unknown colorant, assumed neutral"⟩

/-- Base saturation for a colorant before atmosphere modification. -/
def _get_colorant_base_saturation (colorant : String) : ℚ :=
  if pyLower colorant = "iron" then 6.5
  else if pyLower colorant = "cobalt" then 8.5
  else if pyLower colorant = "copper" then 8.0
  else if pyLower colorant = "chrome" then 7.0
  else if pyLower colorant = "manganese" then 5.5
  else if pyLower colorant = "vanadium" then 6.0
  else 6.0

/-- `amount_factor = 0.3 + (min(colorant_percentage / typical_amount, 1.5) * 0.7)`
with `typical_amount = 8.0`, as computed inline in `analyze_glaze_formulation`. -/
def amount_factor (colorant_percentage : ℚ) : ℚ :=
  0.3 + (min (colorant_percentage / 8.0) 1.5) * 0.7

/-- `maturation_boost = (maturation / 10.0) * 0.3`, as computed inline in
`analyze_glaze_formulation`. -/
def maturation_boost (maturation : ℚ) : ℚ :=
  (maturation / 10.0) * 0.3

/-- Descriptive impression of the glaze (`_generate_impression`). -/
def _generate_impression (intensity saturation reflectivity maturation : ℚ) : String :=
  (if intensity > 7 ∧ saturation > 7 then "deep and saturated"
   else if intensity < 4 ∧ saturation < 5 then "bright and delicate"
   else if reflectivity > 8 then "luminous and reflective"
   else if reflectivity < 3 then "matte and earthy"
   else "balanced and intentional")
  ++ ", " ++
  (if maturation > 8 then "fully developed"
   else if maturation > 6 then "well-matured"
   else "developing")

/-- Sensory intention this glaze embodies (`_sensory_intention`). -/
def _sensory_intention (atmosphere flux_type _colorant : String)
    (_intensity _reflectivity : ℚ) : String :=
  (if pyLower atmosphere = "reduction" then "mysterious, concentrated, sultry"
   else if pyLower atmosphere = "oxidation" then "clear, bright, direct"
   else if pyLower atmosphere = "neutral" then "balanced, stable"
   else "undefined")
  ++ "; " ++
  (if pyLower flux_type = "boron" then "luminous and flowing"
   else if pyLower flux_type = "alkaline" then "fluid and dynamic"
   else if pyLower flux_type = "alkaline_earth" then "stable and grounded"
   else if pyLower flux_type = "lead" then "smooth and glassy"
   else "undefined")

/-- Visual mood (`_visual_mood`). -/
def _visual_mood (intensity saturation : ℚ) : String :=
  (if intensity > 7 then "dark"
   else if intensity < 4 then "light"
   else "medium")
  ++ ", " ++
  (if saturation > 8 then "highly saturated"
   else if saturation < 4 then "muted"
   else "balanced")

/-- The seven numeric visual parameters of the returned bundle. -/
structure VisualParameters where
  optical_intensity : ℚ
  saturation : ℚ
  reflectivity : ℚ
  hue_temperature : ℚ
  maturation_level : ℚ
  crystalline_definition : ℚ
  surface_flow : ℚ
deriving DecidableEq, Repr

/-- The descriptive-qualities block of the returned bundle. -/
structure DescriptiveQualities where
  atmosphere_effect : String
  surface_texture : String
  colorant_character : String
  overall_impression : String
deriving DecidableEq, Repr

/-- The sensory-intention block of the returned bundle. -/
structure SensoryIntention where
  feels_like : String
  visual_mood : String
deriving DecidableEq, Repr

/-- The dictionary returned by `analyze_glaze_formulation`. -/
structure GlazeBundle where
  glaze_name : String
  visual_parameters : VisualParameters
  descriptive_qualities : DescriptiveQualities
  sensory_intention : SensoryIntention
deriving DecidableEq, Repr

/-- Composite morphism: analyze complete glaze formulation
(`GlazeChemistryProcessor.analyze_glaze_formulation`). -/
def analyze_glaze_formulation (colorant : String) (colorant_percentage : ℚ)
    (flux_type atmosphere : String) (cone : ℤ) (runs : Bool) : GlazeBundle :=
  let am := apply_atmosphere_morphism colorant atmosphere
  let fm := apply_flux_morphism flux_type
  let tm := apply_temperature_morphism cone
  let colorant_profile := apply_colorant_morphism colorant
  let base_sat := _get_colorant_base_saturation colorant
  let final_saturation :=
    min ((base_sat * am.2.1 * amount_factor colorant_percentage)
          + (base_sat * maturation_boost tm.1)) 10.0
  let flow_intensity := if runs then fm.1 * 0.8 else fm.1 * 0.2
  { glaze_name := pyCapitalize atmosphere ++ " " ++ pyCapitalize colorant
    visual_parameters :=
      { optical_intensity := round1 am.1
        saturation := round1 final_saturation
        reflectivity := round1 fm.1
        hue_temperature := round1 colorant_profile.hue_temperature
        maturation_level := round1 tm.1
        crystalline_definition := round1 tm.2
        surface_flow := round1 flow_intensity }
    descriptive_qualities :=
      { atmosphere_effect := atmosphere ++ " firing"
        surface_texture := fm.2
        colorant_character := colorant_profile.description
        overall_impression := _generate_impression am.1 final_saturation fm.1 tm.1 }
    sensory_intention :=
      { feels_like := _sensory_intention atmosphere flux_type colorant am.1 fm.1
        visual_mood := _visual_mood am.1 final_saturation } }

/-! Embedding of `server.py`: the prompt-enhancement tool and the two
static listing tools. -/

/-- Optical-quality clause of `enhance_image_prompt_from_glaze`. -/
def optical_quality_clause (optical_intensity : ℚ) : String :=
  if optical_intensity > 7 then "dark, concentrated optical quality"
  else if optical_intensity < 4 then "bright, transparent, luminous quality"
  else "balanced, medium-value optical quality"

/-- Surface-finish clause of `enhance_image_prompt_from_glaze`. -/
def surface_finish_clause (reflectivity : ℚ) : String :=
  if reflectivity > 8 then "glossy mirror-like surface with strong light reflection"
  else if reflectivity < 3 then "matte absorptive surface with diffuse light"
  else "satin semi-gloss surface"

/-- Color-saturation clause of `enhance_image_prompt_from_glaze`. -/
def saturation_clause (saturation : ℚ) : String :=
  if saturation > 8 then "intensely saturated, vivid coloration"
  else if saturation < 4 then "subtly tinted, muted coloration"
  else "balanced, clear coloration"

/-- Hue-quality clause of `enhance_image_prompt_from_glaze`. -/
def hue_quality_clause (hue_temp : ℚ) : String :=
  if hue_temp > 7 then "warm-toned, earthy character"
  else if hue_temp < 3 then "cool-toned, pure character"
  else "neutral balanced coloration"

/-- Maturation clause of `enhance_image_prompt_from_glaze`. -/
def maturation_clause (maturation_level : ℚ) : String :=
  if maturation_level > 8 then "fully matured, intentional finish"
  else "developing, slightly softer edges"

/-- The `enhancement_parts` list built by `enhance_image_prompt_from_glaze`:
one clause appended per `if`/`else` block, in source order. -/
def enhancement_parts (vp : VisualParameters) (feels_like : String) : List String :=
  [optical_quality_clause vp.optical_intensity,
   surface_finish_clause vp.reflectivity,
   saturation_clause vp.saturation,
   hue_quality_clause vp.hue_temperature,
   maturation_clause vp.maturation_level,
   "feels " ++ feels_like]

/-- The payload serialized by `enhance_image_prompt_from_glaze`. -/
structure EnhancedPrompt where
  original_prompt : String
  glaze_analysis : GlazeBundle
  enhancement_text : String
  enhanced_prompt : String
deriving DecidableEq, Repr

/-- Tool `enhance_image_prompt_from_glaze`: analyzes the glaze at the fixed
reference percentage 10.0 with `runs=False`, renders the six clauses joined
by `"; "`, and appends them to the base prompt in a bracketed suffix. -/
def enhance_image_prompt_from_glaze (base_prompt colorant flux_type atmosphere : String)
    (cone : ℤ) : EnhancedPrompt :=
  let glaze_analysis := analyze_glaze_formulation colorant 10.0 flux_type atmosphere cone false
  let enhancement_text :=
    String.intercalate "; "
      (enhancement_parts glaze_analysis.visual_parameters
        glaze_analysis.sensory_intention.feels_like)
  { original_prompt := base_prompt
    glaze_analysis := glaze_analysis
    enhancement_text := enhancement_text
    enhanced_prompt := base_prompt ++ " [glaze aesthetic: " ++ enhancement_text ++ "]" }

/-- One entry of the `list_available_colorants` table. -/
structure ColorantListing where
  description : String
  visual_character : String
  under_oxidation : String
  under_reduction : String
  typical_percentage : String
  warmth_score : ℚ
  note : String
deriving DecidableEq, Repr

/-- Tool `list_available_colorants`: the static colorant documentation table. -/
def list_available_colorants : List (String × ColorantListing) :=
  [("iron",
    { description := "Iron oxide (Fe₂O₃/Fe₃O₄)"
      visual_character := "earthy, warm, natural-feeling"
      under_oxidation := "yellows, browns, reds"
      under_reduction := "blacks, dark greens, blacks with brown edges"
      typical_percentage := "5-8%"
      warmth_score := 8.0
      note := "Most versatile, historically important colorant" }),
   ("cobalt",
    { description := "Cobalt oxide (CoO)"
      visual_character := "pure intense blue, jewel-like"
      under_oxidation := "clear, pure blues"
      under_reduction := "deep purples, darker blues with mystery"
      typical_percentage := "0.5-2%"
      warmth_score := 1.5
      note := "Strongest colorant, potent even in small amounts" }),
   ("copper",
    { description := "Copper oxide (CuO/Cu₂O)"
      visual_character := "versatile, atmosphere-responsive"
      under_oxidation := "greens, blue-greens, turquoise"
      under_reduction := "deep reds, black-reds, copper metallic"
      typical_percentage := "5-10%"
      warmth_score := 5.0
      note := "Most atmosphere-sensitive, dramatic shifts possible" }),
   ("chrome",
    { description := "Chromium oxide (Cr₂O₃)"
      visual_character := "stable mineral green, environmental"
      under_oxidation := "greens, olive greens"
      under_reduction := "greens (remains stable)"
      typical_percentage := "5-8%"
      warmth_score := 2.0
      note := "Stable, doesn't shift under atmosphere changes" }),
   ("manganese",
    { description := "Manganese dioxide (MnO₂)"
      visual_character := "soft purple-brown, muted, organic"
      under_oxidation := "browns, purples, browns with purple tint"
      under_reduction := "darker browns, purples, near-black"
      typical_percentage := "3-8%"
      warmth_score := 1.0
      note := "Produces subtle colors, good for blending" }),
   ("vanadium",
    { description := "Vanadium pentoxide (V₂O₅)"
      visual_character := "warm yellow, slightly muted, rare"
      under_oxidation := "yellows, yellow-greens"
      under_reduction := "yellows, warm browns"
      typical_percentage := "5-10%"
      warmth_score := 7.0
      note := "Rare, expensive, produces unique warm tones" })]

/-- One entry of the `list_available_fluxes` table. -/
structure FluxListing where
  chemistry : String
  melting_behavior : String
  surface_finish : String
  reflectivity_score : ℚ
  running_behavior : String
  typical_use : String
  cone_range : String
  visual_effect : String
  note : String
deriving DecidableEq, Repr

/-- Tool `list_available_fluxes`: the static flux documentation table. -/
def list_available_fluxes : List (String × FluxListing) :=
  [("boron",
    { chemistry := "Boron oxide (B₂O₃), usually from borax or boric acid"
      melting_behavior := "Creates glassy, fluid melts with strong surface tension reduction"
      surface_finish := "Glossy, mirror-like, highly reflective"
      reflectivity_score := 9.5
      running_behavior := "Moderate to high—runs easily on vertical surfaces"
      typical_use := "For glossy surfaces, color clarity, smooth finishes"
      cone_range := "Any, but especially effective mid-fire (cone 5-6)"
      visual_effect := "luminous and flowing, mirror-like luminosity"
      note := "Creates the brightest, glossiest surfaces" }),
   ("alkaline",
    { chemistry := "Soda (Na₂O), potassium (K₂O), or soda ash"
      melting_behavior := "Creates fluid, flowing melts; viscosity varies with amount"
      surface_finish := "Satin to semi-gloss, somewhat fluid"
      reflectivity_score := 6.0
      running_behavior := "High—glazes will run and pool at edges"
      typical_use := "For dynamic, running glazes; creates pooling effects"
      cone_range := "Mid to high fire (cone 5 and up)"
      visual_effect := "fluid and dynamic, gravity-affected flowing"
      note := "Creates intentional runs and pooling; dramatic edge effects" }),
   ("alkaline_earth",
    { chemistry := "Calcium (CaO), magnesium (MgO), strontium (SrO)"
      melting_behavior := "Creates stiffer melts; limited fluidity"
      surface_finish := "Matte, semi-matte, absorptive"
      reflectivity_score := 2.5
      running_behavior := "Low—stays where applied, minimal running"
      typical_use := "For matte surfaces, natural textures, earthy feel"
      cone_range := "Mid to high fire (cone 5-13)"
      visual_effect := "stable and grounded, light-absorbing"
      note := "Creates most natural, earthy finishes" }),
   ("lead",
    { chemistry := "Lead oxide (PbO) - use in tested commercial glazes only"
      melting_behavior := "Creates smooth, glassy melts; very fluid"
      surface_finish := "Glassy, smooth, luminous"
      reflectivity_score := 8.0
      running_behavior := "Moderate—flows smoothly but controlled"
      typical_use := "Historic glazes, functional ware (food-safe when tested)"
      cone_range := "Low to mid fire (cone 06-2)"
      visual_effect := "smooth and glassy, refined luminosity"
      note := "Historically important; modern use requires safety testing. Not typically used in studio practice anymore." })]

/-- `apply_atmosphere_morphism` with the colorant-specific hue-shift
component replaced by `0`. -/
def apply_atmosphere_morphism_zero (_colorant atmosphere : String) : ℚ × ℚ × ℚ :=
  if pyLower atmosphere = "reduction" then (8.5, 1.3, 0)
  else if pyLower atmosphere = "oxidation" then (4.0, 0.7, 0)
  else (5.5, 1.0, 0)

/-- `analyze_glaze_formulation` with the hue-shift component of the
atmosphere morphism forced to `0` — used to state that the hue-shift
tables are dead data for the returned bundle. -/
def analyze_glaze_formulation_hue_zero (colorant : String) (colorant_percentage : ℚ)
    (flux_type atmosphere : String) (cone : ℤ) (runs : Bool) : GlazeBundle :=
  let am := apply_atmosphere_morphism_zero colorant atmosphere
  let fm := apply_flux_morphism flux_type
  let tm := apply_temperature_morphism cone
  let colorant_profile := apply_colorant_morphism colorant
  let base_sat := _get_colorant_base_saturation colorant
  let final_saturation :=
    min ((base_sat * am.2.1 * amount_factor colorant_percentage)
          + (base_sat * maturation_boost tm.1)) 10.0
  let flow_intensity := if runs then fm.1 * 0.8 else fm.1 * 0.2
  { glaze_name := pyCapitalize atmosphere ++ " " ++ pyCapitalize colorant
    visual_parameters :=
      { optical_intensity := round1 am.1
        saturation := round1 final_saturation
        reflectivity := round1 fm.1
        hue_temperature := round1 colorant_profile.hue_temperature
        maturation_level := round1 tm.1
        crystalline_definition := round1 tm.2
        surface_flow := round1 flow_intensity }
    descriptive_qualities :=
      { atmosphere_effect := atmosphere ++ " firing"
        surface_texture := fm.2
        colorant_character := colorant_profile.description
        overall_impression := _generate_impression am.1 final_saturation fm.1 tm.1 }
    sensory_intention :=
      { feels_like := _sensory_intention atmosphere flux_type colorant am.1 fm.1
        visual_mood := _visual_mood am.1 final_saturation } }

/-! Helper lemmas. -/

/-- If `(k : ℚ)/10 ≤ x` then `(k : ℚ)/10 ≤ round1 x`: rounding to one
decimal never crosses an exact tenth downward. -/
lemma le_round1 (x : ℚ) (k : ℤ) (h : (k : ℚ) / 10 ≤ x) : (k : ℚ) / 10 ≤ round1 x := by
  have hk : k ≤ Int.floor (10 * x) := by
    rw [Int.le_floor]
    linarith
  unfold round1
  have h10 : (0 : ℚ) < 10 := by norm_num
  split_ifs <;>
    (rw [div_le_div_iff_of_pos_right h10]; exact_mod_cast (by omega : k ≤ _))

/-- If `x ≤ (k : ℚ)/10` then `round1 x ≤ (k : ℚ)/10`: rounding to one
decimal never crosses an exact tenth upward. -/
lemma round1_le (x : ℚ) (k : ℤ) (h : x ≤ (k : ℚ) / 10) : round1 x ≤ (k : ℚ) / 10 := by
  have h10x : 10 * x ≤ (k : ℚ) := by linarith
  have hn : Int.floor (10 * x) ≤ k := by
    have := Int.floor_le_floor h10x
    simpa using this
  have hfl : (Int.floor (10 * x) : ℚ) ≤ 10 * x := Int.floor_le _
  have h10 : (0 : ℚ) < 10 := by norm_num
  have hstrict : 10 * x - (Int.floor (10 * x) : ℚ) > 0 → Int.floor (10 * x) < k := by
    intro hpos
    rcases lt_or_eq_of_le hn with hlt | heq
    · exact hlt
    · exfalso
      rw [heq] at hpos
      linarith
  unfold round1
  split_ifs with h1 h2 h3
  · have : Int.floor (10 * x) < k := hstrict (by linarith)
    rw [div_le_div_iff_of_pos_right h10]
    exact_mod_cast (by omega : ((Int.floor (10 * x) + 1 : ℤ) : ℤ) ≤ k)
  · rw [div_le_div_iff_of_pos_right h10]
    exact_mod_cast hn
  · rw [div_le_div_iff_of_pos_right h10]
    exact_mod_cast hn
  · have : Int.floor (10 * x) < k := hstrict (by linarith)
    rw [div_le_div_iff_of_pos_right h10]
    exact_mod_cast (by omega : ((Int.floor (10 * x) + 1 : ℤ) : ℤ) ≤ k)

/-- A value in `[0, 10]` stays in `[0, 10]` after rounding to one decimal. -/
lemma round1_mem_Icc (x : ℚ) (h0 : 0 ≤ x) (h10 : x ≤ 10) :
    0 ≤ round1 x ∧ round1 x ≤ 10 := by
  constructor
  · have := le_round1 x 0 (by push_cast; linarith)
    simpa using this
  · have := round1_le x 100 (by push_cast; linarith)
    norm_num at this
    exact this

/-- The base saturation of any colorant lies in `[5.5, 8.5]`. -/
lemma base_saturation_bounds (c : String) :
    5.5 ≤ _get_colorant_base_saturation c ∧ _get_colorant_base_saturation c ≤ 8.5 := by
  unfold _get_colorant_base_saturation
  split_ifs <;> norm_num

/-- The optical intensity of any atmosphere lies in `[4, 8.5]` and the
saturation modifier in `[0.7, 1.3]`. -/
lemma atmosphere_bounds (c a : String) :
    4 ≤ (apply_atmosphere_morphism c a).1 ∧ (apply_atmosphere_morphism c a).1 ≤ 8.5 ∧
    0.7 ≤ (apply_atmosphere_morphism c a).2.1 ∧ (apply_atmosphere_morphism c a).2.1 ≤ 1.3 := by
  unfold apply_atmosphere_morphism
  split_ifs <;> norm_num

/-- The reflectivity of any flux lies in `[2.5, 9.5]`. -/
lemma flux_reflectivity_bounds (f : String) :
    2.5 ≤ (apply_flux_morphism f).1 ∧ (apply_flux_morphism f).1 ≤ 9.5 := by
  unfold apply_flux_morphism
  split_ifs <;> norm_num

/-- The temperature morphism yields maturation in `[3.5, 9.5]` and
crystallinity in `[1, 8]`. -/
lemma temperature_bounds (k : ℤ) :
    3.5 ≤ (apply_temperature_morphism k).1 ∧ (apply_temperature_morphism k).1 ≤ 9.5 ∧
    1 ≤ (apply_temperature_morphism k).2 ∧ (apply_temperature_morphism k).2 ≤ 8 := by
  unfold apply_temperature_morphism
  split_ifs <;> norm_num

/-- The hue temperature of any colorant profile lies in `[1, 8]`. -/
lemma hue_temperature_bounds (c : String) :
    1 ≤ (apply_colorant_morphism c).hue_temperature ∧
    (apply_colorant_morphism c).hue_temperature ≤ 8 := by
  unfold apply_colorant_morphism
  split_ifs <;> norm_num

/-- For a nonnegative percentage the amount factor lies in `[0.3, 1.35]`. -/
lemma amount_factor_bounds (p : ℚ) (hp : 0 ≤ p) :
    0.3 ≤ amount_factor p ∧ amount_factor p ≤ 1.35 := by
  unfold amount_factor
  have hmin0 : (0 : ℚ) ≤ min (p / 8.0) 1.5 :=
    le_min (by positivity) (by norm_num)
  have hmin1 : min (p / 8.0) 1.5 ≤ 1.5 := min_le_right _ _
  constructor <;> nlinarith

/-- The maturation boost lies in `[0.105, 0.285]` for maturation in `[3.5, 9.5]`. -/
lemma maturation_boost_bounds (m : ℚ) (h1 : 3.5 ≤ m) (h2 : m ≤ 9.5) :
    0.105 ≤ maturation_boost m ∧ maturation_boost m ≤ 0.285 := by
  unfold maturation_boost
  constructor <;> nlinarith

/-- Boolean substring test, used to state "the sensory string contains …". -/
def strContains (s sub : String) : Bool :=
  (List.range (s.data.length + 1)).any (fun i => sub.data.isPrefixOf (s.data.drop i))

lemma analyze_optical_intensity_def (c : String) (p : ℚ) (f a : String) (k : ℤ) (r : Bool) :
    (analyze_glaze_formulation c p f a k r).visual_parameters.optical_intensity =
      round1 (apply_atmosphere_morphism c a).1 := rfl

lemma analyze_saturation_def (c : String) (p : ℚ) (f a : String) (k : ℤ) (r : Bool) :
    (analyze_glaze_formulation c p f a k r).visual_parameters.saturation =
      round1 (min ((_get_colorant_base_saturation c * (apply_atmosphere_morphism c a).2.1
          * amount_factor p)
        + (_get_colorant_base_saturation c * maturation_boost (apply_temperature_morphism k).1))
        10.0) := rfl

lemma analyze_reflectivity_def (c : String) (p : ℚ) (f a : String) (k : ℤ) (r : Bool) :
    (analyze_glaze_formulation c p f a k r).visual_parameters.reflectivity =
      round1 (apply_flux_morphism f).1 := rfl

lemma analyze_hue_temperature_def (c : String) (p : ℚ) (f a : String) (k : ℤ) (r : Bool) :
    (analyze_glaze_formulation c p f a k r).visual_parameters.hue_temperature =
      round1 (apply_colorant_morphism c).hue_temperature := rfl

lemma analyze_maturation_level_def (c : String) (p : ℚ) (f a : String) (k : ℤ) (r : Bool) :
    (analyze_glaze_formulation c p f a k r).visual_parameters.maturation_level =
      round1 (apply_temperature_morphism k).1 := rfl

lemma analyze_crystalline_definition_def (c : String) (p : ℚ) (f a : String) (k : ℤ) (r : Bool) :
    (analyze_glaze_formulation c p f a k r).visual_parameters.crystalline_definition =
      round1 (apply_temperature_morphism k).2 := rfl

lemma analyze_surface_flow_def (c : String) (p : ℚ) (f a : String) (k : ℤ) (r : Bool) :
    (analyze_glaze_formulation c p f a k r).visual_parameters.surface_flow =
      round1 (if r then (apply_flux_morphism f).1 * 0.8
              else (apply_flux_morphism f).1 * 0.2) := rfl

/-- The un-capped composite saturation is nonnegative once the percentage is. -/
lemma final_saturation_nonneg (c a : String) (p : ℚ) (k : ℤ) (hp : 0 ≤ p) :
    0 ≤ (_get_colorant_base_saturation c * (apply_atmosphere_morphism c a).2.1
          * amount_factor p)
        + (_get_colorant_base_saturation c * maturation_boost (apply_temperature_morphism k).1) := by
  obtain ⟨hb1, hb2⟩ := base_saturation_bounds c
  obtain ⟨_, _, hs1, _⟩ := atmosphere_bounds c a
  obtain ⟨ha1, _⟩ := amount_factor_bounds p hp
  obtain ⟨ht1, ht2, _, _⟩ := temperature_bounds k
  obtain ⟨hm1, _⟩ := maturation_boost_bounds (apply_temperature_morphism k).1 ht1 ht2
  have hb0 : (0:ℚ) ≤ _get_colorant_base_saturation c := by linarith
  have hs0 : (0:ℚ) ≤ (apply_atmosphere_morphism c a).2.1 := by linarith
  have ha0 : (0:ℚ) ≤ amount_factor p := by linarith
  have hm0 : (0:ℚ) ≤ maturation_boost (apply_temperature_morphism k).1 := by linarith
  have := mul_nonneg (mul_nonneg hb0 hs0) ha0
  have := mul_nonneg hb0 hm0
  linarith

/-- The numeric-output invariant: every field lies in `[0, 10]`. -/
def vp_in_range (vp : VisualParameters) : Prop :=
  (0 ≤ vp.optical_intensity ∧ vp.optical_intensity ≤ 10) ∧
  (0 ≤ vp.saturation ∧ vp.saturation ≤ 10) ∧
  (0 ≤ vp.reflectivity ∧ vp.reflectivity ≤ 10) ∧
  (0 ≤ vp.hue_temperature ∧ vp.hue_temperature ≤ 10) ∧
  (0 ≤ vp.maturation_level ∧ vp.maturation_level ≤ 10) ∧
  (0 ≤ vp.crystalline_definition ∧ vp.crystalline_definition ≤ 10) ∧
  (0 ≤ vp.surface_flow ∧ vp.surface_flow ≤ 10)

/-- C1 counterexample: at the real colorant percentage `-1000` the
saturation output of `analyze_glaze_formulation` is negative, so not every
real percentage keeps the seven numeric outputs inside `[0, 10]`. -/
theorem C1_counterexample_negative_saturation :
    (analyze_glaze_formulation "iron" (-1000) "boron" "neutral" 10
        false).visual_parameters.saturation < 0 := by
  rw [analyze_saturation_def]
  simp only [_get_colorant_base_saturation, apply_atmosphere_morphism,
    apply_temperature_morphism, amount_factor, maturation_boost,
    show pyLower "iron" = "iron" from by decide,
    show pyLower "neutral" = "neutral" from by decide,
    String.reduceEq, reduceIte]
  norm_num [round1, min_def]

/-- C1 (amended): for every colorant, flux and atmosphere string, every
integer cone, every runs flag and every **nonnegative** real colorant
percentage, each of the seven numeric outputs of
`analyze_glaze_formulation` (optical_intensity, saturation, reflectivity,
hue_temperature, maturation_level, crystalline_definition, surface_flow)
lies in `[0, 10]`, saturation being capped at 10 after blending; the
restriction to nonnegative percentages is forced, since a negative
percentage drives saturation below 0. -/
theorem C1_outputs_in_unit_interval (colorant : String) (p : ℚ)
    (flux_type atmosphere : String) (cone : ℤ) (runs : Bool) (hp : 0 ≤ p) :
    vp_in_range (analyze_glaze_formulation colorant p flux_type atmosphere cone
      runs).visual_parameters := by
  obtain ⟨hb1, hb2⟩ := base_saturation_bounds colorant
  obtain ⟨ho1, ho2, hs1, hs2⟩ := atmosphere_bounds colorant atmosphere
  obtain ⟨hr1, hr2⟩ := flux_reflectivity_bounds flux_type
  obtain ⟨ht1, ht2, hc1, hc2⟩ := temperature_bounds cone
  obtain ⟨hh1, hh2⟩ := hue_temperature_bounds colorant
  refine ⟨?_, ?_, ?_, ?_, ?_, ?_, ?_⟩
  · rw [analyze_optical_intensity_def]
    exact round1_mem_Icc _ (by linarith) (by linarith)
  · rw [analyze_saturation_def]
    refine round1_mem_Icc _ ?_ ?_
    · exact le_min (final_saturation_nonneg colorant atmosphere p cone hp) (by norm_num)
    · calc min _ (10.0 : ℚ) ≤ 10.0 := min_le_right _ _
        _ = 10 := by norm_num
  · rw [analyze_reflectivity_def]
    exact round1_mem_Icc _ (by linarith) (by linarith)
  · rw [analyze_hue_temperature_def]
    exact round1_mem_Icc _ (by linarith) (by linarith)
  · rw [analyze_maturation_level_def]
    exact round1_mem_Icc _ (by linarith) (by linarith)
  · rw [analyze_crystalline_definition_def]
    exact round1_mem_Icc _ (by linarith) (by linarith)
  · rw [analyze_surface_flow_def]
    rcases runs with _ | _ <;> simp only [Bool.false_eq_true, if_true, if_false] <;>
      exact round1_mem_Icc _ (by nlinarith) (by nlinarith)

/-- Witness for C1 (amended) at a concrete input with percentage `0`. -/
theorem C1_witness :
    (0 : ℚ) ≤ 0 ∧
    vp_in_range (analyze_glaze_formulation "cobalt" 0 "boron" "reduction" 10
      false).visual_parameters :=
  ⟨le_refl 0, C1_outputs_in_unit_interval "cobalt" 0 "boron" "reduction" 10 false (le_refl 0)⟩

/-- C2 counterexample: at percentage `1000` the amount factor equals
`0.3 + 1.5 * 0.7 = 1.35`, outside the claimed interval `[0.3, 1.33]`. -/
theorem C2_counterexample_amount_factor :
    amount_factor 1000 = 1.35 ∧ ¬ amount_factor 1000 ≤ 1.33 := by
  norm_num [amount_factor, min_def]

/-- C2 (amended): the composite-saturation step computes
`amount_factor = 0.3 + min(percentage / 8.0, 1.5) * 0.7`, which lies in
`[0.3, 1.35]` for every nonnegative percentage (the factor saturates at
`1.35`, not `1.33`, once the percentage reaches `12`), computes
`maturation_boost = (maturation / 10.0) * 0.3`, and the saturation output
is the rounded `min(base * modifier * amount_factor + base * boost, 10.0)`,
hence at most `10` for every percentage including extreme values such as
`1000`. -/
theorem C2_amount_factor_and_saturation_cap (p : ℚ) :
    amount_factor p = 0.3 + (min (p / 8.0) 1.5) * 0.7 ∧
    (∀ m : ℚ, maturation_boost m = (m / 10.0) * 0.3) ∧
    (0 ≤ p → 0.3 ≤ amount_factor p ∧ amount_factor p ≤ 1.35) ∧
    (∀ (colorant flux_type atmosphere : String) (cone : ℤ) (runs : Bool),
      (analyze_glaze_formulation colorant p flux_type atmosphere cone
          runs).visual_parameters.saturation =
        round1 (min ((_get_colorant_base_saturation colorant
            * (apply_atmosphere_morphism colorant atmosphere).2.1 * amount_factor p)
          + (_get_colorant_base_saturation colorant
            * maturation_boost (apply_temperature_morphism cone).1)) 10.0) ∧
      (analyze_glaze_formulation colorant p flux_type atmosphere cone
          runs).visual_parameters.saturation ≤ 10) := by
  refine ⟨rfl, fun m => rfl, fun hp => amount_factor_bounds p hp, ?_⟩
  intro colorant flux_type atmosphere cone runs
  refine ⟨analyze_saturation_def _ _ _ _ _ _, ?_⟩
  rw [analyze_saturation_def]
  have hcap := round1_le (min ((_get_colorant_base_saturation colorant
      * (apply_atmosphere_morphism colorant atmosphere).2.1 * amount_factor p)
    + (_get_colorant_base_saturation colorant
      * maturation_boost (apply_temperature_morphism cone).1)) 10.0) 100 (by
    have := min_le_right ((_get_colorant_base_saturation colorant
        * (apply_atmosphere_morphism colorant atmosphere).2.1 * amount_factor p)
      + (_get_colorant_base_saturation colorant
        * maturation_boost (apply_temperature_morphism cone).1)) (10.0 : ℚ)
    push_cast
    linarith)
  exact hcap.trans (by norm_num)

/-- Witness for C2 (amended) at percentage `1000` and a concrete formulation. -/
theorem C2_witness :
    (0 : ℚ) ≤ 1000 ∧
    (0.3 ≤ amount_factor 1000 ∧ amount_factor 1000 ≤ 1.35) ∧
    (analyze_glaze_formulation "cobalt" 1000 "boron" "reduction" 10
        false).visual_parameters.saturation ≤ 10 :=
  ⟨by norm_num,
   (C2_amount_factor_and_saturation_cap 1000).2.2.1 (by norm_num),
   ((C2_amount_factor_and_saturation_cap 1000).2.2.2 "cobalt" "boron" "reduction" 10 false).2⟩

/-- C3 counterexample: for the unrecognized (empty) colorant string the
code's default base saturation is `6.0`, not the claimed `5.0`. -/
theorem C3_counterexample_base_saturation_default :
    _get_colorant_base_saturation "" = 6 ∧ _get_colorant_base_saturation "" ≠ 5 := by
  constructor <;>
    (simp only [_get_colorant_base_saturation, show pyLower "" = "" from by decide,
      String.reduceEq, reduceIte]
     norm_num)

/-- C3 (amended): unrecognized colorant/flux/atmosphere strings (after
lower-casing, including the empty string) never fail and take the neutral
defaults — colorant profile `(5.0, 5.0, 5.0)`, base saturation `6.0` (the
code default, not `5.0` as claimed), flux `(5.0, "balanced")`, atmosphere
`(5.5, 1.0, 0)` — and every category lookup depends only on the
lower-cased string, so recognized names in any mixed case behave exactly
like their lowercase form. -/
theorem C3_unknown_names_degrade_to_defaults (c f a : String) :
    (pyLower c ∉ (["iron", "cobalt", "copper", "chrome", "manganese", "vanadium"] :
        List String) →
      apply_colorant_morphism c = ⟨5.0, 5.0, 5.0, "unknown colorant, assumed neutral"⟩ ∧
      _get_colorant_base_saturation c = 6.0) ∧
    (pyLower f ∉ (["boron", "alkaline", "alkaline_earth", "lead"] : List String) →
      apply_flux_morphism f = (5.0, "balanced")) ∧
    (pyLower a ∉ (["reduction", "oxidation"] : List String) →
      ∀ c0 : String, apply_atmosphere_morphism c0 a = (5.5, 1.0, 0)) ∧
    (∀ s t : String, pyLower s = pyLower t →
      apply_colorant_morphism s = apply_colorant_morphism t ∧
      _get_colorant_base_saturation s = _get_colorant_base_saturation t ∧
      apply_flux_morphism s = apply_flux_morphism t ∧
      ∀ c0 : String, apply_atmosphere_morphism c0 s = apply_atmosphere_morphism c0 t) := by
  refine ⟨?_, ?_, ?_, ?_⟩
  · intro h
    have h1 : pyLower c ≠ "iron" := fun he => h (by simp [he])
    have h2 : pyLower c ≠ "cobalt" := fun he => h (by simp [he])
    have h3 : pyLower c ≠ "copper" := fun he => h (by simp [he])
    have h4 : pyLower c ≠ "chrome" := fun he => h (by simp [he])
    have h5 : pyLower c ≠ "manganese" := fun he => h (by simp [he])
    have h6 : pyLower c ≠ "vanadium" := fun he => h (by simp [he])
    constructor <;>
      simp [apply_colorant_morphism, _get_colorant_base_saturation, h1, h2, h3, h4, h5, h6]
  · intro h
    have h1 : pyLower f ≠ "boron" := fun he => h (by simp [he])
    have h2 : pyLower f ≠ "alkaline" := fun he => h (by simp [he])
    have h3 : pyLower f ≠ "alkaline_earth" := fun he => h (by simp [he])
    have h4 : pyLower f ≠ "lead" := fun he => h (by simp [he])
    simp [apply_flux_morphism, h1, h2, h3, h4]
  · intro h c0
    have h1 : pyLower a ≠ "reduction" := fun he => h (by simp [he])
    have h2 : pyLower a ≠ "oxidation" := fun he => h (by simp [he])
    simp [apply_atmosphere_morphism, h1, h2]
  · intro s t hst
    refine ⟨?_, ?_, ?_, fun c0 => ?_⟩ <;>
      simp only [apply_colorant_morphism, _get_colorant_base_saturation,
        apply_flux_morphism, apply_atmosphere_morphism, _get_reduction_hue_shift,
        _get_oxidation_hue_shift, hst]

/-- Witness for C3 (amended): the empty string and a mixed-case name. -/
theorem C3_witness :
    (apply_colorant_morphism "" = ⟨5.0, 5.0, 5.0, "unknown colorant, assumed neutral"⟩ ∧
      _get_colorant_base_saturation "" = 6.0) ∧
    apply_flux_morphism "" = (5.0, "balanced") ∧
    apply_atmosphere_morphism "cobalt" "" = (5.5, 1.0, 0) ∧
    apply_colorant_morphism "CoBaLt" = apply_colorant_morphism "cobalt" :=
  ⟨(C3_unknown_names_degrade_to_defaults "" "" "").1 (by decide),
   (C3_unknown_names_degrade_to_defaults "" "" "").2.1 (by decide),
   ((C3_unknown_names_degrade_to_defaults "" "" "").2.2.1 (by decide)) "cobalt",
   ((C3_unknown_names_degrade_to_defaults "CoBaLt" "" "").2.2.2 "CoBaLt" "cobalt"
      (by decide)).1⟩

/-- C4 counterexample: the surface description published for the
`alkaline` flux by `list_available_fluxes` differs from the surface
description the analyzer computes for it, so the listing data and the
computation data have drifted apart. -/
theorem C4_counterexample_surface_description_drift :
    (list_available_fluxes.lookup "alkaline").map FluxListing.surface_finish =
      some "Satin to semi-gloss, somewhat fluid" ∧
    (apply_flux_morphism "alkaline").2 = "satin, fluid, slight matte" ∧
    (list_available_fluxes.lookup "alkaline").map FluxListing.surface_finish ≠
      some (apply_flux_morphism "alkaline").2 := by
  refine ⟨by decide, by decide, by decide⟩

/-- C4 (amended): the listing tools cover exactly the colorants and fluxes
of the internal tables, and their numeric fields agree with the analyzer
entry for entry (`warmth_score` with the colorant profile's
`hue_temperature`, `reflectivity_score` with the flux reflectivity);
the free-text descriptions, however, are written independently and drift
from the computation tables. -/
theorem C4_listing_numeric_fields_match_internal_tables :
    list_available_colorants.map Prod.fst =
      ["iron", "cobalt", "copper", "chrome", "manganese", "vanadium"] ∧
    list_available_fluxes.map Prod.fst = ["boron", "alkaline", "alkaline_earth", "lead"] ∧
    (list_available_colorants.lookup "iron").map ColorantListing.warmth_score =
      some (apply_colorant_morphism "iron").hue_temperature ∧
    (list_available_colorants.lookup "cobalt").map ColorantListing.warmth_score =
      some (apply_colorant_morphism "cobalt").hue_temperature ∧
    (list_available_colorants.lookup "copper").map ColorantListing.warmth_score =
      some (apply_colorant_morphism "copper").hue_temperature ∧
    (list_available_colorants.lookup "chrome").map ColorantListing.warmth_score =
      some (apply_colorant_morphism "chrome").hue_temperature ∧
    (list_available_colorants.lookup "manganese").map ColorantListing.warmth_score =
      some (apply_colorant_morphism "manganese").hue_temperature ∧
    (list_available_colorants.lookup "vanadium").map ColorantListing.warmth_score =
      some (apply_colorant_morphism "vanadium").hue_temperature ∧
    (list_available_fluxes.lookup "boron").map FluxListing.reflectivity_score =
      some (apply_flux_morphism "boron").1 ∧
    (list_available_fluxes.lookup "alkaline").map FluxListing.reflectivity_score =
      some (apply_flux_morphism "alkaline").1 ∧
    (list_available_fluxes.lookup "alkaline_earth").map FluxListing.reflectivity_score =
      some (apply_flux_morphism "alkaline_earth").1 ∧
    (list_available_fluxes.lookup "lead").map FluxListing.reflectivity_score =
      some (apply_flux_morphism "lead").1 :=
  ⟨by decide, by decide, rfl, rfl, rfl, rfl, rfl, rfl, rfl, rfl, rfl, rfl⟩

/-- C5: for every colorant, the atmosphere step yields
`(optical_intensity, saturation_modifier) = (8.5, 1.3)` under reduction,
`(4.0, 0.7)` under oxidation, and `(5.5, 1.0)` with hue shift `0` for
anything else; reduction's constants strictly exceed oxidation's. -/
theorem C5_atmosphere_constants (colorant atmosphere : String) :
    (pyLower atmosphere = "reduction" →
      (apply_atmosphere_morphism colorant atmosphere).1 = 8.5 ∧
      (apply_atmosphere_morphism colorant atmosphere).2.1 = 1.3) ∧
    (pyLower atmosphere = "oxidation" →
      (apply_atmosphere_morphism colorant atmosphere).1 = 4.0 ∧
      (apply_atmosphere_morphism colorant atmosphere).2.1 = 0.7) ∧
    (pyLower atmosphere ≠ "reduction" → pyLower atmosphere ≠ "oxidation" →
      apply_atmosphere_morphism colorant atmosphere = (5.5, 1.0, 0)) ∧
    (apply_atmosphere_morphism colorant "reduction").1 >
      (apply_atmosphere_morphism colorant "oxidation").1 ∧
    (apply_atmosphere_morphism colorant "reduction").2.1 >
      (apply_atmosphere_morphism colorant "oxidation").2.1 := by
  refine ⟨fun h => ?_, fun h => ?_, fun h1 h2 => ?_, ?_, ?_⟩
  · constructor <;> simp [apply_atmosphere_morphism, h]
  · constructor <;> simp [apply_atmosphere_morphism, h]
  · simp [apply_atmosphere_morphism, h1, h2]
  · simp only [apply_atmosphere_morphism,
      show pyLower "reduction" = "reduction" from by decide,
      show pyLower "oxidation" = "oxidation" from by decide, String.reduceEq, reduceIte]
    norm_num
  · simp only [apply_atmosphere_morphism,
      show pyLower "reduction" = "reduction" from by decide,
      show pyLower "oxidation" = "oxidation" from by decide, String.reduceEq, reduceIte]
    norm_num

/-- Witness for C5 at a mixed-case reduction and oxidation atmosphere. -/
theorem C5_witness :
    ((apply_atmosphere_morphism "cobalt" "Reduction").1 = 8.5 ∧
      (apply_atmosphere_morphism "cobalt" "Reduction").2.1 = 1.3) ∧
    ((apply_atmosphere_morphism "cobalt" "OXIDATION").1 = 4.0 ∧
      (apply_atmosphere_morphism "cobalt" "OXIDATION").2.1 = 0.7) ∧
    apply_atmosphere_morphism "cobalt" "neutral" = (5.5, 1.0, 0) :=
  ⟨(C5_atmosphere_constants "cobalt" "Reduction").1 (by decide),
   (C5_atmosphere_constants "cobalt" "OXIDATION").2.1 (by decide),
   (C5_atmosphere_constants "cobalt" "neutral").2.2.1 (by decide) (by decide)⟩

/-- C6: the temperature step buckets the cone into three bands,
`cone ≤ 2 → (3.5, 1.0)`, `3 ≤ cone ≤ 6 → (7.0, 4.0)` and
`cone > 6 → (9.5, 8.0)`, with the derived inequalities of the spec. -/
theorem C6_temperature_buckets (cone : ℤ) :
    (cone ≤ 2 → apply_temperature_morphism cone = (3.5, 1.0)) ∧
    (3 ≤ cone → cone ≤ 6 → apply_temperature_morphism cone = (7.0, 4.0)) ∧
    (6 < cone → apply_temperature_morphism cone = (9.5, 8.0)) ∧
    (cone ≤ 2 → (apply_temperature_morphism cone).1 < 5 ∧
      (apply_temperature_morphism cone).2 < 3) ∧
    (3 ≤ cone → cone ≤ 6 → 6.5 < (apply_temperature_morphism cone).1 ∧
      (apply_temperature_morphism cone).1 < 7.5) ∧
    (6 < cone → 9 < (apply_temperature_morphism cone).1) := by
  refine ⟨fun h => ?_, fun h3 h6 => ?_, fun h => ?_, fun h => ?_, fun h3 h6 => ?_,
    fun h => ?_⟩
  · simp [apply_temperature_morphism, h]
  · simp [apply_temperature_morphism, show ¬ cone ≤ 2 by omega, h6]
  · simp [apply_temperature_morphism, show ¬ cone ≤ 2 by omega, show ¬ cone ≤ 6 by omega]
  · constructor <;> (simp [apply_temperature_morphism, h]; norm_num)
  · constructor <;>
      (simp [apply_temperature_morphism, show ¬ cone ≤ 2 by omega, h6]; norm_num)
  · simp [apply_temperature_morphism, show ¬ cone ≤ 2 by omega, show ¬ cone ≤ 6 by omega]
    norm_num

/-- Witness for C6 at cones 1, 4 and 10, one in each band. -/
theorem C6_witness :
    apply_temperature_morphism 1 = (3.5, 1.0) ∧
    apply_temperature_morphism 4 = (7.0, 4.0) ∧
    apply_temperature_morphism 10 = (9.5, 8.0) ∧
    9 < (apply_temperature_morphism 10).1 :=
  ⟨(C6_temperature_buckets 1).1 (by omega),
   (C6_temperature_buckets 4).2.1 (by omega) (by omega),
   (C6_temperature_buckets 10).2.2.1 (by omega),
   (C6_temperature_buckets 10).2.2.2.2.2 (by omega)⟩

/-- C7: the cobalt/boron/reduction/cone-10 example formulation yields
optical intensity `8.5`, reflectivity `9.5`, hue temperature `1.5`,
saturation strictly above `7.5`, and a sensory `feels_like` string
containing "mysterious" and "concentrated". -/
theorem C7_reduction_cobalt_example :
    (analyze_glaze_formulation "cobalt" 2.0 "boron" "reduction" 10
        false).visual_parameters.optical_intensity = 8.5 ∧
    (analyze_glaze_formulation "cobalt" 2.0 "boron" "reduction" 10
        false).visual_parameters.reflectivity = 9.5 ∧
    (analyze_glaze_formulation "cobalt" 2.0 "boron" "reduction" 10
        false).visual_parameters.hue_temperature = 1.5 ∧
    7.5 < (analyze_glaze_formulation "cobalt" 2.0 "boron" "reduction" 10
        false).visual_parameters.saturation ∧
    strContains ((analyze_glaze_formulation "cobalt" 2.0 "boron" "reduction" 10
        false).sensory_intention.feels_like) "mysterious" = true ∧
    strContains ((analyze_glaze_formulation "cobalt" 2.0 "boron" "reduction" 10
        false).sensory_intention.feels_like) "concentrated" = true := by
  refine ⟨?_, ?_, ?_, ?_, by decide, by decide⟩
  · rw [analyze_optical_intensity_def]
    simp only [apply_atmosphere_morphism,
      show pyLower "reduction" = "reduction" from by decide, String.reduceEq, reduceIte]
    norm_num [round1]
  · rw [analyze_reflectivity_def]
    simp only [apply_flux_morphism,
      show pyLower "boron" = "boron" from by decide, String.reduceEq, reduceIte]
    norm_num [round1]
  · rw [analyze_hue_temperature_def]
    simp only [apply_colorant_morphism,
      show pyLower "cobalt" = "cobalt" from by decide, String.reduceEq, reduceIte]
    norm_num [round1]
  · rw [analyze_saturation_def]
    simp only [apply_atmosphere_morphism, apply_temperature_morphism,
      _get_colorant_base_saturation,
      show pyLower "cobalt" = "cobalt" from by decide,
      show pyLower "reduction" = "reduction" from by decide, String.reduceEq, reduceIte]
    norm_num [round1, min_def, amount_factor, maturation_boost]

/-- C8: the prompt-enhancement tool analyzes at the fixed percentage `10.0`
with `runs = false`, renders the six descriptive clauses in their fixed
order joined by `"; "`, and returns the unmodified base prompt followed by
the clause text inside a bracketed suffix. -/
theorem C8_enhance_prompt_structure (base_prompt colorant flux_type atmosphere : String)
    (cone : ℤ) :
    (enhance_image_prompt_from_glaze base_prompt colorant flux_type atmosphere
        cone).glaze_analysis =
      analyze_glaze_formulation colorant 10.0 flux_type atmosphere cone false ∧
    (enhance_image_prompt_from_glaze base_prompt colorant flux_type atmosphere
        cone).original_prompt = base_prompt ∧
    (∀ (vp : VisualParameters) (feels : String),
      enhancement_parts vp feels =
        [optical_quality_clause vp.optical_intensity,
         surface_finish_clause vp.reflectivity,
         saturation_clause vp.saturation,
         hue_quality_clause vp.hue_temperature,
         maturation_clause vp.maturation_level,
         "feels " ++ feels] ∧
      (enhancement_parts vp feels).length = 6) ∧
    (enhance_image_prompt_from_glaze base_prompt colorant flux_type atmosphere
        cone).enhancement_text =
      String.intercalate "; "
        (enhancement_parts
          (analyze_glaze_formulation colorant 10.0 flux_type atmosphere cone
            false).visual_parameters
          (analyze_glaze_formulation colorant 10.0 flux_type atmosphere cone
            false).sensory_intention.feels_like) ∧
    (enhance_image_prompt_from_glaze base_prompt colorant flux_type atmosphere
        cone).enhanced_prompt =
      base_prompt ++ " [glaze aesthetic: " ++
        (enhance_image_prompt_from_glaze base_prompt colorant flux_type atmosphere
          cone).enhancement_text ++ "]" :=
  ⟨rfl, rfl, fun _ _ => ⟨rfl, rfl⟩, rfl, rfl⟩

/-- C9: the `runs` flag feeds only the surface-flow computation — with it
toggled, every other field of the bundle (the glaze name, the six other
numeric parameters, all descriptive strings and the sensory block) is
unchanged. -/
theorem C9_runs_flag_only_affects_surface_flow (colorant : String) (p : ℚ)
    (flux_type atmosphere : String) (cone : ℤ) :
    (analyze_glaze_formulation colorant p flux_type atmosphere cone true).glaze_name =
      (analyze_glaze_formulation colorant p flux_type atmosphere cone false).glaze_name ∧
    (analyze_glaze_formulation colorant p flux_type atmosphere cone
        true).visual_parameters.optical_intensity =
      (analyze_glaze_formulation colorant p flux_type atmosphere cone
        false).visual_parameters.optical_intensity ∧
    (analyze_glaze_formulation colorant p flux_type atmosphere cone
        true).visual_parameters.saturation =
      (analyze_glaze_formulation colorant p flux_type atmosphere cone
        false).visual_parameters.saturation ∧
    (analyze_glaze_formulation colorant p flux_type atmosphere cone
        true).visual_parameters.reflectivity =
      (analyze_glaze_formulation colorant p flux_type atmosphere cone
        false).visual_parameters.reflectivity ∧
    (analyze_glaze_formulation colorant p flux_type atmosphere cone
        true).visual_parameters.hue_temperature =
      (analyze_glaze_formulation colorant p flux_type atmosphere cone
        false).visual_parameters.hue_temperature ∧
    (analyze_glaze_formulation colorant p flux_type atmosphere cone
        true).visual_parameters.maturation_level =
      (analyze_glaze_formulation colorant p flux_type atmosphere cone
        false).visual_parameters.maturation_level ∧
    (analyze_glaze_formulation colorant p flux_type atmosphere cone
        true).visual_parameters.crystalline_definition =
      (analyze_glaze_formulation colorant p flux_type atmosphere cone
        false).visual_parameters.crystalline_definition ∧
    (analyze_glaze_formulation colorant p flux_type atmosphere cone
        true).descriptive_qualities =
      (analyze_glaze_formulation colorant p flux_type atmosphere cone
        false).descriptive_qualities ∧
    (analyze_glaze_formulation colorant p flux_type atmosphere cone
        true).sensory_intention =
      (analyze_glaze_formulation colorant p flux_type atmosphere cone
        false).sensory_intention :=
  ⟨rfl, rfl, rfl, rfl, rfl, rfl, rfl, rfl, rfl⟩

/-- C10: the hue-shift component produced by the atmosphere morphism is
dead data — the bundle returned by `analyze_glaze_formulation` equals the
one computed with every colorant-specific hue shift replaced by `0`, so
the reduction and oxidation hue-shift tables have no effect on any
output. -/
theorem C10_hue_shift_unused (colorant : String) (p : ℚ)
    (flux_type atmosphere : String) (cone : ℤ) (runs : Bool) :
    analyze_glaze_formulation colorant p flux_type atmosphere cone runs =
      analyze_glaze_formulation_hue_zero colorant p flux_type atmosphere cone runs := by
  simp only [analyze_glaze_formulation, analyze_glaze_formulation_hue_zero,
    apply_atmosphere_morphism, apply_atmosphere_morphism_zero]
  split_ifs <;> rfl

end PotteryGlazing
